import Mathlib

/-!
Shallow embedding of the authentication core of the Express demo server
(`src/unnamed/part_000`): the in-memory `users` array, the
`POST /api/v1/register`, `POST /api/v1/login`, `GET /api/v1/profile` and
`POST /api/v1/logout` handlers, and the JWT signing/verification they
delegate to.  Request-body fields are modelled as `String`s where the
empty string stands for a missing/falsy field (the handlers only test JS
truthiness and exact string equality on them, so this quotient is
faithful).  Time is a `Nat` count of seconds.
-/

namespace ExpressAuth

/-- One element of the in-memory `users` array (part_000 line 142-148):
`{ id, username, email, password: hashedPassword, createdAt }`.
The `password` field stores the bcrypt hash, never the plaintext. -/
structure User where
  id : String
  username : String
  email : String
  password : String
  createdAt : String
deriving Repr, DecidableEq

/-- The payload signed into a token (part_000 line 154 and 212):
`{ userId, email }`. -/
structure Claims where
  userId : String
  email : String
deriving Repr, DecidableEq

/-- Modelled from the spec: the `jsonwebtoken` library (an external
dependency, not part of src/).  A signed token is its claims plus the
issued-at and expiry timestamps and the secret it was signed with; carrying
the secret inside the token models the fact that an HMAC signature binds
the payload to the signing secret, so verification with a different secret
fails. -/
structure Token where
  claims : Claims
  iat : Nat
  exp : Nat
  secret : String
deriving Repr, DecidableEq

/-- Modelled from the spec: `jwt.sign(payload, secret, { expiresIn })` of
the `jsonwebtoken` library.  `expiresIn "24h"` translates to an `exp`
claim of `iat + 86400` seconds. -/
def jwtSign (c : Claims) (secret : String) (now : Nat) (expiresInSecs : Nat) : Token :=
  { claims := c, iat := now, exp := now + expiresInSecs, secret := secret }

/-- The two ways `jwt.verify` can throw for a well-formed compact token:
signature failure (`JsonWebTokenError`) or expiry (`TokenExpiredError`). -/
inductive VerifyError where
  | malformed
  | expired
deriving Repr, DecidableEq

/-- Modelled from the spec: `jwt.verify(token, secret)` of the
`jsonwebtoken` library.  It rejects a token signed with a different secret,
then throws `TokenExpiredError` when the clock timestamp is at or past the
`exp` claim (the library tests `clockTimestamp >= exp`), and otherwise
returns the embedded claims. -/
def jwtVerify (t : Token) (secret : String) (now : Nat) : Except VerifyError Claims :=
  if t.secret ≠ secret then .error .malformed
  else if t.exp ≤ now then .error .expired
  else .ok t.claims

/-- The secret expression used at every sign/verify site
(part_000 lines 155, 213, 360): `process.env.JWT_SECRET || "your-secret-key"`.
An absent variable is `none`; an empty string is falsy in JS, so both fall
back to the hard-coded literal. -/
def envJwtSecret (jwtSecretVar : Option String) : String :=
  match jwtSecretVar with
  | none => "your-secret-key"
  | some s => if s = "" then "your-secret-key" else s

/-- The process environment as far as the auth handlers read it. -/
structure Env where
  jwtSecretVar : Option String
deriving Repr, DecidableEq

/-- Body of `POST /api/v1/register`; `""` models a missing/falsy field. -/
structure RegisterBody where
  username : String
  email : String
  password : String
deriving Repr, DecidableEq

/-- The JSON response of the two credential endpoints: status code,
`success` flag, `message`, the `user` object as the literal list of
key/value pairs the handler builds, the `token` body field, and the
`token` cookie set by login. -/
structure ApiResponse where
  status : Nat
  success : Bool
  message : String
  userFields : Option (List (String × String))
  token : Option Token
  cookie : Option Token
deriving Repr, DecidableEq

/-- The `user` object of the 201 register response (part_000 lines 162-167):
`{ id, username, email, createdAt }` — no password key. -/
def registerUserView (u : User) : List (String × String) :=
  [("id", u.id), ("username", u.username), ("email", u.email), ("createdAt", u.createdAt)]

/-- The `user` object of the 200 login response (part_000 lines 227-231):
`{ id, username, email }` — no password key. -/
def loginUserView (u : User) : List (String × String) :=
  [("id", u.id), ("username", u.username), ("email", u.email)]

/-- The `user` object of the 200 profile response (part_000 lines 374-379). -/
def profileUserView (u : User) : List (String × String) :=
  [("id", u.id), ("username", u.username), ("email", u.email), ("createdAt", u.createdAt)]

/-- The `POST /api/v1/register` handler (part_000 lines 117-178).
`hashed` is the bcrypt digest of `body.password` (the hash call is total on
string input), `freshId` the `uuidv4()` result, `nowIso` the
`new Date().toISOString()` value and `nowSecs` the clock used by
`jwt.sign`.  Returns the updated `users` array and the response. -/
def registerHandler (env : Env) (body : RegisterBody) (hashed freshId nowIso : String)
    (nowSecs : Nat) (users : List User) : List User × ApiResponse :=
  if body.username = "" ∨ body.email = "" ∨ body.password = "" then
    (users, ⟨400, false, "Username, email, and password are required", none, none, none⟩)
  else if (users.find? (fun u => u.email == body.email)).isSome then
    (users, ⟨400, false, "User already exists", none, none, none⟩)
  else
    let newUser : User :=
      { id := freshId, username := body.username, email := body.email,
        password := hashed, createdAt := nowIso }
    let token := jwtSign { userId := newUser.id, email := newUser.email }
      (envJwtSecret env.jwtSecretVar) nowSecs 86400
    (users ++ [newUser],
      ⟨201, true, "User registered successfully", some (registerUserView newUser),
        some token, none⟩)

/-- The `POST /api/v1/login` handler (part_000 lines 181-242).
`compare p h` is `bcrypt.compare(p, h)`.  Login never mutates `users`,
so only the response is returned. -/
def loginHandler (env : Env) (email password : String)
    (compare : String → String → Bool) (nowSecs : Nat) (users : List User) : ApiResponse :=
  if email = "" ∨ password = "" then
    ⟨400, false, "Email and password are required", none, none, none⟩
  else
    match users.find? (fun u => u.email == email) with
    | none => ⟨401, false, "Invalid credentials", none, none, none⟩
    | some user =>
      if compare password user.password then
        let token := jwtSign { userId := user.id, email := user.email }
          (envJwtSecret env.jwtSecretVar) nowSecs 86400
        ⟨200, true, "Login successful", some (loginUserView user), some token, some token⟩
      else
        ⟨401, false, "Invalid credentials", none, none, none⟩

/-- JS `String.prototype.split` with a single-character separator, on the
character list of the string: splits at every occurrence of the separator
and keeps empty segments, so `"".split(" ")` is `[""]` and
`"a  b".split(" ")` is `["a","","b"]`. -/
def jsSplitChar (c : Char) : List Char → List (List Char)
  | [] => [[]]
  | x :: xs =>
    if x = c then [] :: jsSplitChar c xs
    else
      match jsSplitChar c xs with
      | [] => [[x]]
      | y :: ys => (x :: y) :: ys

/-- `h.split(" ")[1]` on a header string: the second space-separated
segment, or `none` where JS yields `undefined`. -/
def headerCandidate (h : String) : Option String :=
  ((jsSplitChar ' ' h.data).map String.mk).get? 1

/-- JS truthiness of an optional string: `undefined` and `""` are falsy. -/
def truthy (o : Option String) : Bool :=
  match o with
  | none => false
  | some s => s ≠ ""

/-- Line 348: `req.cookies.token || req.headers.authorization?.split(" ")[1]`.
A falsy cookie value falls through to the header expression; an absent
header makes the optional chain yield `undefined`. -/
def extractToken (cookie authHeader : Option String) : Option String :=
  if truthy cookie then cookie
  else
    match authHeader with
    | none => none
    | some h => headerCandidate h

/-- Outcome of `GET /api/v1/profile`, one constructor per `res.status`
site of the handler (part_000 lines 346-389). -/
inductive ProfileResult where
  | missingToken
  | invalidToken
  | userNotFound
  | ok (fields : List (String × String))
deriving Repr, DecidableEq

/-- The HTTP status each profile outcome is sent with: 401 for both the
missing-token early return and the catch-all around `jwt.verify`, 404 for
an unknown subject, 200 on success. -/
def profileStatus : ProfileResult → Nat
  | .missingToken => 401
  | .invalidToken => 401
  | .userNotFound => 404
  | .ok _ => 200

/-- The `GET /api/v1/profile` handler (part_000 lines 346-389).
`parse` decodes a compact token string back to the signed token it
serializes (the JWT wire format; a string that is not a token of this
process decodes to `none` and makes `jwt.verify` throw, landing in the
catch branch exactly as a bad signature does). -/
def profileHandler (env : Env) (parse : String → Option Token)
    (cookie authHeader : Option String) (now : Nat) (users : List User) : ProfileResult :=
  let token := extractToken cookie authHeader
  if ¬ truthy token then .missingToken
  else
    match token with
    | none => .missingToken
    | some tstr =>
      match parse tstr with
      | none => .invalidToken
      | some t =>
        match jwtVerify t (envJwtSecret env.jwtSecretVar) now with
        | .error _ => .invalidToken
        | .ok decoded =>
          match users.find? (fun u => u.id == decoded.userId) with
          | none => .userNotFound
          | some u => .ok (profileUserView u)

/-- One client-visible operation against the server state.  The
nondeterministic inputs of each handler (bcrypt digest, uuid, clock) are
carried as data of the operation. -/
inductive Op where
  | register (username email password hashed freshId nowIso : String) (nowSecs : Nat)
  | login (email password : String) (nowSecs : Nat)
  | profile (cookie authHeader : Option String) (now : Nat)
  | logout
deriving Repr

/-- The effect of one operation on the shared `users` array: only
`register` writes to it (login, profile and logout read or ignore it). -/
def applyOp (env : Env) (compare : String → String → Bool)
    (parse : String → Option Token) (users : List User) : Op → List User
  | .register username email password hashed freshId nowIso nowSecs =>
    (registerHandler env ⟨username, email, password⟩ hashed freshId nowIso nowSecs users).1
  | .login email password nowSecs =>
    let _ := loginHandler env email password compare nowSecs users
    users
  | .profile cookie authHeader now =>
    let _ := profileHandler env parse cookie authHeader now users
    users
  | .logout => users

/-- The `users` array reached from the empty initial array (part_000
line 27: `const users = []`) after a sequence of operations. -/
def runOps (env : Env) (compare : String → String → Bool)
    (parse : String → Option Token) (ops : List Op) : List User :=
  ops.foldl (applyOp env compare parse) []

/-- No two stored accounts share an email. -/
def emailsDistinct (users : List User) : Prop :=
  users.Pairwise (fun a b => a.email ≠ b.email)

/-- A second definition following the claim's words rather than the source:
"the candidate token is whatever follows the first space in the
Authorization header" — everything after the first space, or nothing when
the header has no space. -/
def specCandidateToken (h : String) : Option String :=
  if ' ' ∈ h.data then some (String.mk ((h.data.dropWhile (fun x => x ≠ ' ')).tail))
  else none

/-- Concrete token for witnesses: issued at time 0 with the fallback
secret, so it expires at 86400. -/
def tokenFixture : Token :=
  { claims := { userId := "id1", email := "a@x.com" }, iat := 0, exp := 86400,
    secret := "your-secret-key" }

/-- Concrete token for witnesses: issued at 86400 with the fallback
secret, still live at 86400. -/
def tokenFixtureLive : Token :=
  { claims := { userId := "id1", email := "a@x.com" }, iat := 86400, exp := 172800,
    secret := "your-secret-key" }

/-- Concrete token decoder for witnesses: "ctok" decodes to the token
expiring at 86400, "vtok" to the one expiring at 172800, everything else
fails to decode. -/
def parseFixture : String → Option Token :=
  fun s => if s = "ctok" then some tokenFixture
    else if s = "vtok" then some tokenFixtureLive
    else none

/-! ## Helper lemmas -/

theorem registerHandler_fst_preserves (env : Env) (body : RegisterBody)
    (hashed freshId nowIso : String) (nowSecs : Nat) (users : List User)
    (h : emailsDistinct users) :
    emailsDistinct (registerHandler env body hashed freshId nowIso nowSecs users).1 := by
  unfold registerHandler
  split
  · exact h
  · split
    · exact h
    · rename_i hfind
      have hnone : users.find? (fun u => u.email == body.email) = none :=
        Option.not_isSome_iff_eq_none.mp hfind
      have hall := List.find?_eq_none.mp hnone
      simp only [emailsDistinct, List.pairwise_append, List.pairwise_singleton,
        List.mem_singleton]
      refine ⟨h, trivial, ?_⟩
      intro a ha b hb
      subst hb
      intro heq
      exact hall a ha (by simpa using heq)

theorem applyOp_preserves (env : Env) (compare : String → String → Bool)
    (parse : String → Option Token) (users : List User) (op : Op)
    (h : emailsDistinct users) :
    emailsDistinct (applyOp env compare parse users op) := by
  cases op with
  | register username email password hashed freshId nowIso nowSecs =>
    exact registerHandler_fst_preserves env ⟨username, email, password⟩
      hashed freshId nowIso nowSecs users h
  | login email password nowSecs => exact h
  | profile cookie authHeader now => exact h
  | logout => exact h

theorem foldl_applyOp_preserves (env : Env) (compare : String → String → Bool)
    (parse : String → Option Token) :
    ∀ (ops : List Op) (users : List User), emailsDistinct users →
      emailsDistinct (ops.foldl (applyOp env compare parse) users)
  | [], _, h => h
  | op :: ops, users, h =>
    foldl_applyOp_preserves env compare parse ops _
      (applyOp_preserves env compare parse users op h)

/-! ## Claim theorems -/

/-- C1: starting from the empty directory, after any sequence of
register/login/profile/logout operations, no two stored accounts share an
email: `register` rejects an exact duplicate email with the 400 conflict
response and is the only operation that inserts accounts. -/
theorem unique_email_invariant (env : Env) (compare : String → String → Bool)
    (parse : String → Option Token) (ops : List Op) :
    emailsDistinct (runOps env compare parse ops) :=
  foldl_applyOp_preserves env compare parse ops [] List.Pairwise.nil

/-- C2: a register call grows the directory by exactly one when it responds
with a 2xx status, and leaves the directory unchanged whenever it responds
outside the 2xx range (the validation and duplicate-email failures; the
embedded handler has no other failure path, its hashing and signing steps
being total on the string inputs the handler feeds them). -/
theorem register_directory_size (env : Env) (body : RegisterBody)
    (hashed freshId nowIso : String) (nowSecs : Nat) (users : List User) :
    (200 ≤ (registerHandler env body hashed freshId nowIso nowSecs users).2.status ∧
        (registerHandler env body hashed freshId nowIso nowSecs users).2.status < 300 →
      (registerHandler env body hashed freshId nowIso nowSecs users).1.length =
        users.length + 1) ∧
    ((registerHandler env body hashed freshId nowIso nowSecs users).2.status < 200 ∨
        300 ≤ (registerHandler env body hashed freshId nowIso nowSecs users).2.status →
      (registerHandler env body hashed freshId nowIso nowSecs users).1 = users) := by
  unfold registerHandler
  split
  · exact ⟨fun h => absurd h.2 (by simp), fun _ => rfl⟩
  · split
    · exact ⟨fun h => absurd h.2 (by simp), fun _ => rfl⟩
    · refine ⟨fun _ => by simp, fun h => ?_⟩
      rcases h with h | h <;> simp at h

/-- Witness for C2: with the empty directory, registering alice succeeds
(status 201) and the directory has length one; a register call with a
missing username responds 400 and leaves the directory empty. -/
theorem register_directory_size_witness :
    (registerHandler ⟨none⟩ ⟨"alice", "a@x.com", "pw123456"⟩ "hashA" "id1" "ts1" 0 ([] : List User)).1.length =
      ([] : List User).length + 1 ∧
    (registerHandler ⟨none⟩ ⟨"", "a@x.com", "pw123456"⟩ "hashA" "id1" "ts1" 0 ([] : List User)).1 = [] :=
  ⟨(register_directory_size ⟨none⟩ ⟨"alice", "a@x.com", "pw123456"⟩ "hashA" "id1" "ts1" 0 ([] : List User)).1
      (by decide),
    (register_directory_size ⟨none⟩ ⟨"", "a@x.com", "pw123456"⟩ "hashA" "id1" "ts1" 0 ([] : List User)).2
      (by decide)⟩

/-- C3: the login failure for an unknown email and the login failure for a
known email with a non-matching password produce the very same response:
status 401, the same "Invalid credentials" message, no user, no token, no
cookie — the two cases are indistinguishable to the caller. -/
theorem login_failures_indistinguishable (env : Env) (users : List User)
    (email password : String) (compare : String → String → Bool) (nowSecs : Nat)
    (he : email ≠ "") (hp : password ≠ "") :
    (users.find? (fun u => u.email == email) = none →
      loginHandler env email password compare nowSecs users =
        ⟨401, false, "Invalid credentials", none, none, none⟩) ∧
    (∀ u, users.find? (fun u => u.email == email) = some u →
      compare password u.password = false →
      loginHandler env email password compare nowSecs users =
        ⟨401, false, "Invalid credentials", none, none, none⟩) := by
  constructor
  · intro hfind
    simp [loginHandler, he, hp, hfind]
  · intro u hfind hcmp
    simp [loginHandler, he, hp, hfind, hcmp]

/-- Witness for C3: against a directory holding only bob, logging in with
an unknown email and logging in as bob with a rejected password return the
identical 401 response. -/
theorem login_failures_indistinguishable_witness :
    loginHandler ⟨none⟩ "a@x.com" "pw" (fun _ _ => false) 0
        [⟨"id1", "bob", "b@x.com", "hashB", "ts"⟩] =
      ⟨401, false, "Invalid credentials", none, none, none⟩ ∧
    loginHandler ⟨none⟩ "b@x.com" "pw" (fun _ _ => false) 0
        [⟨"id1", "bob", "b@x.com", "hashB", "ts"⟩] =
      ⟨401, false, "Invalid credentials", none, none, none⟩ :=
  ⟨(login_failures_indistinguishable ⟨none⟩ [⟨"id1", "bob", "b@x.com", "hashB", "ts"⟩]
      "a@x.com" "pw" (fun _ _ => false) 0 (by decide) (by decide)).1 (by decide),
    (login_failures_indistinguishable ⟨none⟩ [⟨"id1", "bob", "b@x.com", "hashB", "ts"⟩]
      "b@x.com" "pw" (fun _ _ => false) 0 (by decide) (by decide)).2
      ⟨"id1", "bob", "b@x.com", "hashB", "ts"⟩ (by decide) rfl⟩

theorem registerHandler_userFields_shape (env : Env) (body : RegisterBody)
    (hashed freshId nowIso : String) (nowSecs : Nat) (users : List User) :
    (registerHandler env body hashed freshId nowIso nowSecs users).2.userFields = none ∨
    ∃ u : User,
      (registerHandler env body hashed freshId nowIso nowSecs users).2.userFields =
        some (registerUserView u) := by
  unfold registerHandler
  split
  · exact Or.inl rfl
  · split
    · exact Or.inl rfl
    · exact Or.inr ⟨_, rfl⟩

theorem loginHandler_userFields_shape (env : Env) (email password : String)
    (compare : String → String → Bool) (nowSecs : Nat) (users : List User) :
    (loginHandler env email password compare nowSecs users).userFields = none ∨
    ∃ u : User,
      (loginHandler env email password compare nowSecs users).userFields =
        some (loginUserView u) := by
  unfold loginHandler
  split
  · exact Or.inl rfl
  · split
    · exact Or.inl rfl
    · split
      · exact Or.inr ⟨_, rfl⟩
      · exact Or.inl rfl

/-- C8: whenever a register or login response carries a `user` object, its
keys never include a password or credentialHash field — the views are built
from `{id, username, email, createdAt}` and `{id, username, email}`
respectively, for all inputs and directory states. -/
theorem success_views_exclude_password (env : Env) (body : RegisterBody)
    (hashed freshId nowIso : String) (nowSecs : Nat) (users : List User)
    (email password : String) (compare : String → String → Bool)
    (fields : List (String × String)) :
    ((registerHandler env body hashed freshId nowIso nowSecs users).2.userFields =
        some fields →
      "password" ∉ fields.map Prod.fst ∧ "credentialHash" ∉ fields.map Prod.fst) ∧
    ((loginHandler env email password compare nowSecs users).userFields = some fields →
      "password" ∉ fields.map Prod.fst ∧ "credentialHash" ∉ fields.map Prod.fst) := by
  constructor
  · intro hf
    rcases registerHandler_userFields_shape env body hashed freshId nowIso nowSecs users with
      h | ⟨u, h⟩
    · rw [h] at hf; exact absurd hf (by simp)
    · rw [h] at hf
      have : fields = registerUserView u := (Option.some.injEq _ _ ▸ hf).symm
      subst this
      simp [registerUserView]
  · intro hf
    rcases loginHandler_userFields_shape env email password compare nowSecs users with
      h | ⟨u, h⟩
    · rw [h] at hf; exact absurd hf (by simp)
    · rw [h] at hf
      have : fields = loginUserView u := (Option.some.injEq _ _ ▸ hf).symm
      subst this
      simp [loginUserView]

/-- Witness for C8: the concrete register success for alice and the
concrete login success for bob both produce user objects without a
password or credentialHash key. -/
theorem success_views_exclude_password_witness :
    ("password" ∉
        ([("id", "id1"), ("username", "alice"), ("email", "a@x.com"),
          ("createdAt", "ts1")].map Prod.fst) ∧
      "credentialHash" ∉
        ([("id", "id1"), ("username", "alice"), ("email", "a@x.com"),
          ("createdAt", "ts1")].map Prod.fst)) ∧
    ("password" ∉
        ([("id", "id2"), ("username", "bob"), ("email", "b@x.com")].map Prod.fst) ∧
      "credentialHash" ∉
        ([("id", "id2"), ("username", "bob"), ("email", "b@x.com")].map Prod.fst)) :=
  ⟨(success_views_exclude_password ⟨none⟩ ⟨"alice", "a@x.com", "pw123456"⟩ "hashA" "id1"
      "ts1" 0 [] "e" "p" (fun _ _ => true)
      [("id", "id1"), ("username", "alice"), ("email", "a@x.com"),
        ("createdAt", "ts1")]).1 (by decide),
    (success_views_exclude_password ⟨none⟩ ⟨"alice", "a@x.com", "pw123456"⟩ "hashA" "id1"
      "ts1" 0 [⟨"id2", "bob", "b@x.com", "hashB", "ts2"⟩] "b@x.com" "pw" (fun _ _ => true)
      [("id", "id2"), ("username", "bob"), ("email", "b@x.com")]).2 (by decide)⟩

/-- C6 (code bug): when the JWT_SECRET configuration is absent, the secret
expression silently evaluates to the hard-coded literal "your-secret-key",
and a register call issues a token signed with that fallback — the missing
configuration is never treated as a fatal error. -/
theorem secret_fallback_is_silent :
    envJwtSecret none = "your-secret-key" ∧
    (registerHandler ⟨none⟩ ⟨"alice", "a@x.com", "pw123456"⟩ "hashA" "id1" "ts1" 0
        ([] : List User)).2.token =
      some { claims := { userId := "id1", email := "a@x.com" }, iat := 0, exp := 86400,
             secret := "your-secret-key" } :=
  ⟨rfl, rfl⟩

/-- C4: verifying a token with the same secret it was issued with, at any
clock strictly before issuedAt + 24h (in particular immediately after
issuance), returns exactly the subject id and email it was issued for. -/
theorem issue_verify_roundtrip (id email secret : String) (t0 t : Nat)
    (h : t < t0 + 86400) :
    jwtVerify (jwtSign ⟨id, email⟩ secret t0 86400) secret t = .ok ⟨id, email⟩ := by
  simp only [jwtSign, jwtVerify, ne_eq, not_true_eq_false, if_false]
  rw [if_neg (by omega)]

/-- Witness for C4: a token issued at time 100 verifies at time 100 and
returns its claims. -/
theorem issue_verify_roundtrip_witness :
    jwtVerify (jwtSign ⟨"id1", "a@x.com"⟩ "s3cret" 100 86400) "s3cret" 100 =
      .ok ⟨"id1", "a@x.com"⟩ :=
  issue_verify_roundtrip "id1" "a@x.com" "s3cret" 100 100 (by decide)

/-- C5: verification of an issued token at any clock at or past
issuedAt + 24h fails with the Expired error; strictly before that it does
not fail for expiry; and the profile endpoint surfaces the expired-token
failure as status 401. -/
theorem token_expiry (id email secret : String) (t0 t : Nat) (env : Env)
    (parse : String → Option Token) (c : String) (users : List User) :
    (t0 + 86400 ≤ t →
      jwtVerify (jwtSign ⟨id, email⟩ secret t0 86400) secret t = .error .expired) ∧
    (t < t0 + 86400 →
      jwtVerify (jwtSign ⟨id, email⟩ secret t0 86400) secret t ≠ .error .expired) ∧
    (c ≠ "" →
      parse c = some (jwtSign ⟨id, email⟩ (envJwtSecret env.jwtSecretVar) t0 86400) →
      t0 + 86400 ≤ t →
      profileStatus (profileHandler env parse (some c) none t users) = 401) := by
  refine ⟨fun hle => ?_, fun hlt => ?_, fun hc hp hle => ?_⟩
  · simp [jwtSign, jwtVerify, hle]
  · simp [jwtSign, jwtVerify]
    omega
  · have hex : extractToken (some c) none = some c := by simp [extractToken, truthy, hc]
    simp [profileHandler, hex, truthy, hc, hp, jwtSign, jwtVerify, hle, profileStatus]

/-- Witness for C5: the fixture token issued at 0 fails as expired at
86400, does not fail for expiry at 86399, and a profile request carrying
it in the cookie at 86400 gets status 401. -/
theorem token_expiry_witness :
    jwtVerify (jwtSign ⟨"id1", "a@x.com"⟩ "s3cret" 0 86400) "s3cret" 86400 =
      .error .expired ∧
    jwtVerify (jwtSign ⟨"id1", "a@x.com"⟩ "s3cret" 0 86400) "s3cret" 86399 ≠
      .error .expired ∧
    profileStatus (profileHandler ⟨none⟩ parseFixture (some "ctok") none 86400 []) = 401 :=
  ⟨(token_expiry "id1" "a@x.com" "s3cret" 0 86400 ⟨none⟩ parseFixture "ctok" []).1
      (by decide),
    (token_expiry "id1" "a@x.com" "s3cret" 0 86399 ⟨none⟩ parseFixture "ctok" []).2.1
      (by decide),
    (token_expiry "id1" "a@x.com" "your-secret-key" 0 86400 ⟨none⟩ parseFixture "ctok"
      []).2.2 (by decide) (by decide) (by decide)⟩

/-- C7: a profile request whose token extracts, decodes and verifies
successfully but whose subject id matches no stored account gets the 404
user-not-found outcome — absence is not an internal error, and the handler
has no 500 path at all for this case. -/
theorem profile_unknown_subject_is_404 (env : Env) (parse : String → Option Token)
    (cookie authHeader : Option String) (now : Nat) (tok : Token) (claims : Claims)
    (users : List User) (tstr : String)
    (hex : extractToken cookie authHeader = some tstr) (hts : tstr ≠ "")
    (hp : parse tstr = some tok)
    (hv : jwtVerify tok (envJwtSecret env.jwtSecretVar) now = .ok claims)
    (hfind : users.find? (fun u => u.id == claims.userId) = none) :
    profileHandler env parse cookie authHeader now users = .userNotFound ∧
    profileStatus (profileHandler env parse cookie authHeader now users) = 404 := by
  have : profileHandler env parse cookie authHeader now users = .userNotFound := by
    simp [profileHandler, hex, truthy, hts, hp, hv, hfind]
  exact ⟨this, by rw [this]; rfl⟩

/-- Witness for C7: the fixture token verifies at time 0 against the empty
directory, and the profile request carrying it in the cookie gets 404. -/
theorem profile_unknown_subject_is_404_witness :
    profileHandler ⟨none⟩ parseFixture (some "ctok") none 0 [] = .userNotFound ∧
    profileStatus (profileHandler ⟨none⟩ parseFixture (some "ctok") none 0 []) = 404 :=
  profile_unknown_subject_is_404 ⟨none⟩ parseFixture (some "ctok") none 0 tokenFixture
    ⟨"id1", "a@x.com"⟩ [] "ctok" (by decide) (by decide) (by decide) rfl rfl

/-- C9: when the request carries a non-empty token cookie, the
Authorization header is never consulted — the profile outcome is the same
for every header value — and if the cookie token fails to decode or fails
verification (bad signature or expired), the response status is 401 even
when the header holds a different token. -/
theorem cookie_shadows_header (env : Env) (parse : String → Option Token)
    (c : String) (authHeader : Option String) (now : Nat) (users : List User)
    (hc : c ≠ "") :
    (profileHandler env parse (some c) authHeader now users =
      profileHandler env parse (some c) none now users) ∧
    (parse c = none →
      profileStatus (profileHandler env parse (some c) authHeader now users) = 401) ∧
    (∀ tok e, parse c = some tok →
      jwtVerify tok (envJwtSecret env.jwtSecretVar) now = .error e →
      profileStatus (profileHandler env parse (some c) authHeader now users) = 401) := by
  have hex : ∀ h : Option String, extractToken (some c) h = some c := by
    intro h
    simp [extractToken, truthy, hc]
  refine ⟨?_, fun hp => ?_, fun tok e hp hv => ?_⟩
  · simp [profileHandler, hex]
  · simp [profileHandler, hex, truthy, hc, hp, profileStatus]
  · simp [profileHandler, hex, truthy, hc, hp, hv, profileStatus]

/-- Witness for C9: with an expired cookie token and a live header token,
the outcome ignores the header and is 401. -/
theorem cookie_shadows_header_witness :
    (profileHandler ⟨none⟩ parseFixture (some "ctok") (some "Bearer vtok") 86400 [] =
      profileHandler ⟨none⟩ parseFixture (some "ctok") none 86400 []) ∧
    profileStatus
      (profileHandler ⟨none⟩ parseFixture (some "ctok") (some "Bearer vtok") 86400 []) =
      401 :=
  ⟨(cookie_shadows_header ⟨none⟩ parseFixture "ctok" (some "Bearer vtok") 86400 []
      (by decide)).1,
    (cookie_shadows_header ⟨none⟩ parseFixture "ctok" (some "Bearer vtok") 86400 []
      (by decide)).2.2 tokenFixture .expired (by decide) rfl⟩

theorem jsSplitChar_no_sep (c : Char) : ∀ (l : List Char), c ∉ l → jsSplitChar c l = [l]
  | [], _ => rfl
  | x :: xs, h => by
    have hx : ¬ x = c := fun e => h (by simp [e])
    have hxs : c ∉ xs := fun m => h (List.mem_cons_of_mem x m)
    simp [jsSplitChar, hx, jsSplitChar_no_sep c xs hxs]

theorem jsSplitChar_append (c : Char) : ∀ (s t : List Char), c ∉ s →
    jsSplitChar c (s ++ c :: t) = s :: jsSplitChar c t
  | [], t, _ => by simp [jsSplitChar]
  | x :: xs, t, h => by
    have hx : ¬ x = c := fun e => h (by simp [e])
    have hxs : c ∉ xs := fun m => h (List.mem_cons_of_mem x m)
    simp [jsSplitChar, hx, jsSplitChar_append c xs t hxs]

theorem headerCandidate_scheme_token (scheme tok : List Char)
    (hs : ' ' ∉ scheme) (ht : ' ' ∉ tok) :
    headerCandidate (String.mk (scheme ++ ' ' :: tok)) = some (String.mk tok) := by
  unfold headerCandidate
  rw [show (String.mk (scheme ++ ' ' :: tok)).data = scheme ++ ' ' :: tok from rfl,
    jsSplitChar_append ' ' scheme tok hs, jsSplitChar_no_sep ' ' tok ht]
  rfl

theorem headerCandidate_no_space (h : List Char) (hh : ' ' ∉ h) :
    headerCandidate (String.mk h) = none := by
  unfold headerCandidate
  rw [show (String.mk h).data = h from rfl, jsSplitChar_no_sep ' ' h hh]
  rfl

/-- C10 counterexample: for the header "Bearer a b" the code's candidate
token is "a" (the second space-separated segment), while "whatever follows
the first space" is "a b" — the claim's description of the extraction is
false at this header. -/
theorem header_after_first_space_counterexample :
    extractToken none (some "Bearer a b") = some "a" ∧
    specCandidateToken "Bearer a b" = some "a b" ∧
    ("a" : String) ≠ "a b" := by
  refine ⟨by decide, by decide, by decide⟩

/-- C10 (amended): with no cookie, the candidate token is the second
space-separated segment of the Authorization header — the text between the
first and second space, or to the end when there is no second space; the
scheme word is never validated (any scheme is accepted), and a header with
no space (such as a lone scheme word) yields no candidate and takes the
401 missing-token path rather than a malformed-token error. -/
theorem header_token_extraction (scheme tok h : List Char) (env : Env)
    (parse : String → Option Token) (now : Nat) (users : List User)
    (hs : ' ' ∉ scheme) (ht : ' ' ∉ tok) (hh : ' ' ∉ h) :
    extractToken none (some (String.mk (scheme ++ ' ' :: tok))) = some (String.mk tok) ∧
    extractToken none (some (String.mk h)) = none ∧
    profileHandler env parse none (some (String.mk h)) now users = .missingToken := by
  have h1 : extractToken none (some (String.mk (scheme ++ ' ' :: tok))) =
      some (String.mk tok) := by
    simp [extractToken, truthy, headerCandidate_scheme_token scheme tok hs ht]
  have h2 : extractToken none (some (String.mk h)) = none := by
    simp [extractToken, truthy, headerCandidate_no_space h hh]
  refine ⟨h1, h2, ?_⟩
  simp [profileHandler, h2, truthy]

/-- Witness for C10 (amended): the unchecked scheme "Foo" still yields the
candidate "abc", and the spaceless header "Bearer" yields no candidate and
the missing-token outcome. -/
theorem header_token_extraction_witness :
    extractToken none (some (String.mk (['F', 'o', 'o'] ++ ' ' :: ['a', 'b', 'c']))) =
      some (String.mk ['a', 'b', 'c']) ∧
    extractToken none (some (String.mk ['B', 'e', 'a', 'r', 'e', 'r'])) = none ∧
    profileHandler ⟨none⟩ parseFixture none
      (some (String.mk ['B', 'e', 'a', 'r', 'e', 'r'])) 0 [] = .missingToken :=
  header_token_extraction ['F', 'o', 'o'] ['a', 'b', 'c'] ['B', 'e', 'a', 'r', 'e', 'r']
    ⟨none⟩ parseFixture 0 [] (by decide) (by decide) (by decide)

end ExpressAuth
